import Mathlib

/-!
Shallow embedding of the kuberhealthy deployment-check resource-lifecycle
engine, together with theorems settling the specification claims.

Source layout referenced throughout:
  deploymentConfig.go       -- createDeploymentConfig, createContainerConfig
  deploymentOperations.go   -- createDeploymentAndWait, updateDeploymentAndWait,
                               deleteDeploymentAndWait, monitorDeploymentPodErrors,
                               deploymentAvailable, rolledPodsAreReady
  serviceOperations.go      -- deleteServiceAndWait
  checkConfig.go            -- cleanup (CheckConfig parsing is out of scope)
  errorDecoration / probe   -- decorateDeploymentError, requestServiceEndpoint

Go machine integers: deployment status fields are int32, the configured
replica count is a Go int (64-bit).  Conversions int32(x) are embedded
explicitly via int32ofInt.  Go integer division of time.Duration values
truncates toward zero; Lean Int division with the default instance also
truncates toward zero, so the division is carried over directly.
-/

namespace DeploymentCheck

/-- Go int32 conversion: wraps an arbitrary integer into [-2^31, 2^31). -/
def int32ofInt (n : Int) : Int :=
  (n + 2 ^ 31) % 2 ^ 32 - 2 ^ 31

/-- Boolean test that the first character list is a prefix of the second. -/
def listStartsWith : List Char → List Char → Bool
  | [], _ => true
  | _ :: _, [] => false
  | c :: cs, d :: ds => c == d && listStartsWith cs ds

/-- Boolean test that the first character list occurs contiguously
inside the second. -/
def listInfix (needle hay : List Char) : Bool :=
  listStartsWith needle hay ||
  match hay with
  | [] => false
  | _ :: ds => listInfix needle ds

/-- Boolean substring test on strings, used to state that one error
message mentions another: needle occurs contiguously inside hay. -/
def containsSubstr (needle hay : String) : Bool :=
  listInfix needle.data hay.data

theorem listStartsWith_self_append (n b : List Char) :
    listStartsWith n (n ++ b) = true := by
  induction n with
  | nil => rfl
  | cons c cs ih => simp [listStartsWith, ih]

theorem listInfix_mid (a n b : List Char) :
    listInfix n (a ++ (n ++ b)) = true := by
  induction a with
  | nil =>
    rw [List.nil_append, listInfix.eq_def, listStartsWith_self_append]
    simp
  | cons c cs ih =>
    rw [List.cons_append, listInfix.eq_def]
    simp [ih]

theorem containsSubstr_of_parts (a n b : String) :
    containsSubstr n (a ++ (n ++ b)) = true := by
  unfold containsSubstr
  rw [String.data_append, String.data_append]
  exact listInfix_mid a.data n.data b.data

/-- A deployment status condition: type and status strings, from
appsv1.DeploymentCondition.  Only the two fields that
deploymentAvailable reads are embedded. -/
structure DeploymentCondition where
  condType : String
  condStatus : String
deriving DecidableEq, Repr

/-- The fields of appsv1.DeploymentStatus read by deploymentAvailable
(deploymentOperations.go lines 360-395) and rolledPodsAreReady (lines
398-425).  All replica counters are int32 in Go, observedGeneration is
int64; both are embedded as Int. -/
structure DeploymentStatus where
  replicas : Int
  updatedReplicas : Int
  availableReplicas : Int
  readyReplicas : Int
  unavailableReplicas : Int
  observedGeneration : Int
  conditions : List DeploymentCondition
deriving DecidableEq, Repr

/-- Embedding of deploymentAvailable (deploymentOperations.go lines
360-395).  The Go function takes a non-nil deployment pointer and its
status; the nil guard returns false and is subsumed by quantifying over
statuses.  The loop over conditions returns true on the first condition
of type Available with status True provided the replica counters equal
int32(replicas) and the observed generation is 1; each failed check
falls through to the next condition via continue. -/
def deploymentAvailable (status : DeploymentStatus) (replicas : Int) : Bool :=
  status.conditions.any fun condition =>
    condition.condType == "Available" &&
    condition.condStatus == "True" &&
    status.replicas == int32ofInt replicas &&
    status.availableReplicas == int32ofInt replicas &&
    status.readyReplicas == int32ofInt replicas &&
    status.observedGeneration == 1

/-- Embedding of rolledPodsAreReady (deploymentOperations.go lines
398-425): a chain of early false returns, then true. -/
def rolledPodsAreReady (status : DeploymentStatus) (replicas : Int) : Bool :=
  if status.replicas != int32ofInt replicas then false
  else if status.updatedReplicas != int32ofInt replicas then false
  else if status.availableReplicas != int32ofInt replicas then false
  else if status.readyReplicas != int32ofInt replicas then false
  else if status.unavailableReplicas ≥ 1 then false
  else if status.observedGeneration ≤ 1 then false
  else true

/-- Fitting inside Go int32: replica counts configured for the check are
parsed Go ints below 2^31 in every realistic configuration; the
predicates compare status fields against int32(replicas). -/
def fitsInt32 (n : Int) : Prop :=
  -(2 ^ 31) ≤ n ∧ n < 2 ^ 31

instance (n : Int) : Decidable (fitsInt32 n) := by
  unfold fitsInt32
  infer_instance

theorem int32ofInt_eq_self (n : Int) (h : fitsInt32 n) : int32ofInt n = n := by
  obtain ⟨h1, h2⟩ := h
  unfold int32ofInt
  have hlow : (0 : Int) ≤ n + 2 ^ 31 := by linarith
  have hhigh : n + 2 ^ 31 < 2 ^ 32 := by norm_num at h2 ⊢; linarith
  rw [Int.emod_eq_of_lt hlow hhigh]
  ring

/-- C6: for every deployment status, the availability predicate used
after create is false whenever any of the Available condition being
true, the replica counts (replicas, available, ready) matching the
configured count, or observed generation equal to 1 fails, and is true
only when all of them hold.  Stated as an equivalence between the
embedded deploymentAvailable and the conjunction of the checks, for
configured counts that fit in Go int32. -/
theorem C6_deploymentAvailable_iff (status : DeploymentStatus) (replicas : Int)
    (h : fitsInt32 replicas) :
    deploymentAvailable status replicas = true ↔
      ((∃ c ∈ status.conditions, c.condType = "Available" ∧ c.condStatus = "True") ∧
       status.replicas = replicas ∧
       status.availableReplicas = replicas ∧
       status.readyReplicas = replicas ∧
       status.observedGeneration = 1) := by
  unfold deploymentAvailable
  rw [int32ofInt_eq_self replicas h]
  rw [List.any_eq_true]
  constructor
  · rintro ⟨c, hc, hprops⟩
    simp only [Bool.and_eq_true, beq_iff_eq] at hprops
    obtain ⟨⟨⟨⟨⟨h1, h2⟩, h3⟩, h4⟩, h5⟩, h6⟩ := hprops
    exact ⟨⟨c, hc, h1, h2⟩, h3, h4, h5, h6⟩
  · rintro ⟨⟨c, hc, h1, h2⟩, h3, h4, h5, h6⟩
    refine ⟨c, hc, ?_⟩
    simp only [Bool.and_eq_true, beq_iff_eq]
    exact ⟨⟨⟨⟨⟨h1, h2⟩, h3⟩, h4⟩, h5⟩, h6⟩

/-- Witness for C6 at a concrete status with 2 replicas, all checks
passing. -/
theorem C6_deploymentAvailable_iff_witness :
    deploymentAvailable
      ⟨2, 2, 2, 2, 0, 1, [⟨"Available", "True"⟩]⟩ 2 = true :=
  (C6_deploymentAvailable_iff ⟨2, 2, 2, 2, 0, 1, [⟨"Available", "True"⟩]⟩ 2
      (by decide)).mpr
    ⟨⟨⟨"Available", "True"⟩, by simp, rfl, rfl⟩, rfl, rfl, rfl, rfl⟩

/-- C7: for every deployment status, the rollout-complete predicate used
after a rolling update is false whenever the unavailable-replica count
is at least 1 or the observed generation is at most 1, and is true only
when the replica, updated-replica, available-replica, and ready-replica
counts all equal the configured replica count and both exclusions are
satisfied.  Stated as an equivalence for configured counts fitting in
Go int32. -/
theorem C7_rolledPodsAreReady_iff (status : DeploymentStatus) (replicas : Int)
    (h : fitsInt32 replicas) :
    rolledPodsAreReady status replicas = true ↔
      (status.replicas = replicas ∧
       status.updatedReplicas = replicas ∧
       status.availableReplicas = replicas ∧
       status.readyReplicas = replicas ∧
       status.unavailableReplicas < 1 ∧
       1 < status.observedGeneration) := by
  unfold rolledPodsAreReady
  rw [int32ofInt_eq_self replicas h]
  split_ifs with h1 h2 h3 h4 h5 h6 <;>
    simp_all [bne_iff_ne]

/-- Witness for C7 at a concrete post-rollout status with 2 replicas. -/
theorem C7_rolledPodsAreReady_iff_witness :
    rolledPodsAreReady ⟨2, 2, 2, 2, 0, 2, []⟩ 2 = true :=
  (C7_rolledPodsAreReady_iff ⟨2, 2, 2, 2, 0, 2, []⟩ 2 (by decide)).mpr
    ⟨rfl, rfl, rfl, rfl, by norm_num, by norm_num⟩

/-- Constant deploymentMinReadySeconds (deploymentConfig.go line 22). -/
def deploymentMinReadySeconds : Int := 5

/-- Constant deploymentMaxSurgeDefault (deploymentConfig.go line 25). -/
def deploymentMaxSurgeDefault : Int := 2

/-- Constant deploymentMaxUnavailableDefault (deploymentConfig.go line 27). -/
def deploymentMaxUnavailableDefault : Int := 2

/-- Embedding of math.Ceil(float64(n) / float64(2)) on integer inputs
(deploymentConfig.go lines 108-109): the ceiling of n / 2, exact for
every integer whose magnitude is representable in float64. -/
def ceilDivTwo (n : Int) : Int :=
  Int.fdiv (n + 1) 2

/-- The configuration fields of CheckConfig (checkConfig.go) read by the
resource descriptors and the operations under proof.  The remaining
fields (ports, resources, tolerations, env vars, pull secret, time
limits) are carried by the same struct in Go but are not read by any
claim under proof except CheckTimeLimit, which is passed separately to
the monitor embedding. -/
structure CheckConfigL where
  checkImageURL : String
  checkImageURLRollTo : String
  checkDeploymentName : String
  checkNamespace : String
  checkDeploymentReplicas : Int
deriving DecidableEq, Repr

/-- CheckRunner (checkRunner.go lines 12-19): configuration plus the
run-scoped timestamp r.now, embedded by its Unix value used in labels. -/
structure CheckRunnerL where
  cfg : CheckConfigL
  nowUnix : Int
deriving DecidableEq, Repr

/-- The container fields of corev1.Container set by
createContainerConfig (deploymentConfig.go lines 152-219) that are read
by the claims: name, image, pull policy and the single container port.
Resources, env vars and the two probes are built in the source but not
read by any claim under proof. -/
structure ContainerL where
  name : String
  image : String
  imagePullPolicy : String
  containerPorts : List Int
deriving DecidableEq, Repr

/-- Embedding of createContainerConfig (deploymentConfig.go lines
152-219), restricted to the fields of ContainerL. -/
def createContainerConfig (containerPort : Int) (imageURL : String) : ContainerL :=
  { name := "deployment-container"
    image := imageURL
    imagePullPolicy := "IfNotPresent"
    containerPorts := [containerPort] }

/-- The deployment fields produced by createDeploymentConfig that the
claims read.  warnedEmptyImage records the side effect of the
log.Warnln call in the empty-image branch (deploymentConfig.go lines
54-58).  maxSurge and maxUnavailable carry the IntVal of the
intstr.IntOrString values in the rolling-update strategy. -/
structure DeploymentL where
  name : String
  inNamespace : String
  replicas : Option Int
  selectorMatchLabels : Option (List (String × String))
  templateLabels : List (String × String)
  containers : List ContainerL
  maxSurge : Int
  maxUnavailable : Int
  minReadySeconds : Int
  warnedEmptyImage : Bool
deriving DecidableEq, Repr

/-- The Go zero value of appsv1.Deployment restricted to DeploymentL:
what the empty-image branch returns. -/
def emptyDeployment : DeploymentL :=
  { name := ""
    inNamespace := ""
    replicas := none
    selectorMatchLabels := none
    templateLabels := []
    containers := []
    maxSurge := 0
    maxUnavailable := 0
    minReadySeconds := 0
    warnedEmptyImage := false }

/-- Embedding of createDeploymentConfig (deploymentConfig.go lines
45-149).  Given an empty image the Go code logs a warning and returns
the freshly allocated zero-valued deployment; otherwise it assembles
the labels (run timestamp plus the static source marker), the single
container, the selector equal to the labels, the replicas as
int32(CheckDeploymentReplicas), and the rolling-update strategy whose
maxSurge / maxUnavailable are ceil(replicas / 2) with fallback
constants 2 when the computed value is below 1, stored as int32.  The
container port argument of createContainerConfig is fixed to 8080 here
since no claim reads it. -/
def createDeploymentConfig (r : CheckRunnerL) (image : String) : DeploymentL :=
  if image.length = 0 then
    { emptyDeployment with warnedEmptyImage := true }
  else
    let labels : List (String × String) :=
      [("deployment-timestamp", "unix-" ++ toString r.nowUnix),
       ("source", "kuberhealthy")]
    let maxSurgeCeil := ceilDivTwo r.cfg.checkDeploymentReplicas
    let maxUnavailableCeil := ceilDivTwo r.cfg.checkDeploymentReplicas
    { name := r.cfg.checkDeploymentName
      inNamespace := r.cfg.checkNamespace
      replicas := some (int32ofInt r.cfg.checkDeploymentReplicas)
      selectorMatchLabels := some labels
      templateLabels := labels
      containers := [createContainerConfig 8080 image]
      maxSurge :=
        int32ofInt (if maxSurgeCeil < 1 then deploymentMaxSurgeDefault else maxSurgeCeil)
      maxUnavailable :=
        int32ofInt (if maxUnavailableCeil < 1 then deploymentMaxUnavailableDefault
          else maxUnavailableCeil)
      minReadySeconds := deploymentMinReadySeconds
      warnedEmptyImage := false }

/-- The pre-watch phase of createDeploymentAndWait
(deploymentOperations.go lines 27-40): the manifest for
cfg.CheckImageURL is built and handed to the cluster Create call
unconditionally; no guard inspects the manifest between building and
submitting. -/
structure DeploymentCreateSubmission where
  submitted : Bool
  config : DeploymentL
deriving DecidableEq, Repr

/-- Embedding of the create-and-submit phase of createDeploymentAndWait
(deploymentOperations.go lines 27-40). -/
def createDeploymentSubmission (r : CheckRunnerL) : DeploymentCreateSubmission :=
  { submitted := true
    config := createDeploymentConfig r r.cfg.checkImageURL }

/-- Embedding of the containers guard of updateDeploymentAndWait
(deploymentOperations.go lines 96-99): the update path, unlike the
create path, rejects a rebuilt manifest with zero containers before
submitting the update. -/
def updateDeploymentConfigGuard (r : CheckRunnerL) : Option String :=
  if (createDeploymentConfig r r.cfg.checkImageURLRollTo).containers.length = 0 then
    some "updated deployment config did not include containers"
  else none

theorem ceilDivTwo_eq_ediv (n : Int) (h : 0 ≤ n) : ceilDivTwo n = (n + 1) / 2 := by
  unfold ceilDivTwo
  rw [Int.fdiv_eq_tdiv (by omega) (by norm_num), Int.tdiv_eq_ediv (by omega) (by norm_num)]

theorem one_le_ceilDivTwo (n : Int) (h : 1 ≤ n) : 1 ≤ ceilDivTwo n := by
  rw [ceilDivTwo_eq_ediv n (by omega)]
  omega

/-- A concrete runner configured with one replica, used to refute C4 as
stated. -/
def runnerOneReplica : CheckRunnerL :=
  ⟨⟨"nginx:a", "nginx:b", "deployment-deployment", "kuberhealthy", 1⟩, 5⟩

/-- C4 counterexample: with replica count N = 1 and a non-empty image,
the derived max-surge is ceil(1 / 2) = 1, not
max(ceil(1 / 2), 2) = 2 as the claim states; the fallback default 2 is
applied only when the computed ceiling is below 1, which cannot happen
for N greater than or equal to 1. -/
theorem C4_counterexample :
    (createDeploymentConfig runnerOneReplica "nginx:a").maxSurge = 1 ∧
    (createDeploymentConfig runnerOneReplica "nginx:a").maxUnavailable = 1 ∧
    (createDeploymentConfig runnerOneReplica "nginx:a").maxSurge ≠
      max (ceilDivTwo 1) deploymentMaxSurgeDefault := by
  decide

/-- C4 (amended): for all replica counts N at least 1 (fitting int32)
and non-empty images, the derived max-surge and max-unavailable both
equal ceil(N / 2) and are never below 1; the fallback default 2 is used
only when the computed ceiling is below 1, which never happens for N at
least 1. -/
theorem C4_amended_maxSurge (r : CheckRunnerL) (image : String)
    (himg : ¬ image.length = 0)
    (hrep : 1 ≤ r.cfg.checkDeploymentReplicas)
    (hfit : fitsInt32 (ceilDivTwo r.cfg.checkDeploymentReplicas)) :
    (createDeploymentConfig r image).maxSurge =
      ceilDivTwo r.cfg.checkDeploymentReplicas ∧
    (createDeploymentConfig r image).maxUnavailable =
      ceilDivTwo r.cfg.checkDeploymentReplicas ∧
    1 ≤ (createDeploymentConfig r image).maxSurge ∧
    1 ≤ (createDeploymentConfig r image).maxUnavailable := by
  have hce : 1 ≤ ceilDivTwo r.cfg.checkDeploymentReplicas :=
    one_le_ceilDivTwo _ hrep
  have hnot : ¬ (ceilDivTwo r.cfg.checkDeploymentReplicas < 1) := by omega
  simp only [createDeploymentConfig, if_neg himg, if_neg hnot,
    int32ofInt_eq_self _ hfit]
  exact ⟨trivial, trivial, hce, hce⟩

/-- Witness for the amended C4 at a concrete runner with 3 replicas:
both values equal ceil(3 / 2) = 2. -/
theorem C4_amended_maxSurge_witness :
    (createDeploymentConfig ⟨⟨"nginx:a", "nginx:b", "d", "ns", 3⟩, 5⟩
        "nginx:a").maxSurge = ceilDivTwo 3 ∧
    (createDeploymentConfig ⟨⟨"nginx:a", "nginx:b", "d", "ns", 3⟩, 5⟩
        "nginx:a").maxUnavailable = ceilDivTwo 3 ∧
    1 ≤ (createDeploymentConfig ⟨⟨"nginx:a", "nginx:b", "d", "ns", 3⟩, 5⟩
        "nginx:a").maxSurge ∧
    1 ≤ (createDeploymentConfig ⟨⟨"nginx:a", "nginx:b", "d", "ns", 3⟩, 5⟩
        "nginx:a").maxUnavailable :=
  C4_amended_maxSurge ⟨⟨"nginx:a", "nginx:b", "d", "ns", 3⟩, 5⟩ "nginx:a"
    (by decide) (by decide) (by decide)

/-- A concrete runner whose configured check image is the empty string,
used for C5. -/
def runnerEmptyImage : CheckRunnerL :=
  ⟨⟨"", "nginx:b", "deployment-deployment", "kuberhealthy", 2⟩, 5⟩

/-- C5 counterexample: with an empty configured image the descriptor
returns the degenerate zero-container spec (warning logged), and the
create step of createDeploymentAndWait nevertheless submits exactly
that degenerate spec to the cluster Create call: there is no
contract-violation guard before the cluster mutation, refuting the
claim that the degenerate spec is never submitted. -/
theorem C5_counterexample :
    (createDeploymentSubmission runnerEmptyImage).submitted = true ∧
    (createDeploymentSubmission runnerEmptyImage).config.containers.length = 0 ∧
    (createDeploymentSubmission runnerEmptyImage).config.warnedEmptyImage = true := by
  decide

/-- C5 (amended): given an empty image string the descriptor returns a
degenerate workload spec with zero containers and logs a warning rather
than failing; the create step performs no contract-violation check and
submits the degenerate spec to the cluster unconditionally (only the
update path guards against a zero-container manifest). -/
theorem C5_amended_empty_image (r : CheckRunnerL)
    (h : r.cfg.checkImageURL.length = 0) :
    (createDeploymentSubmission r).config.containers.length = 0 ∧
    (createDeploymentSubmission r).config.warnedEmptyImage = true ∧
    (createDeploymentSubmission r).submitted = true ∧
    (∀ r2 : CheckRunnerL, r2.cfg.checkImageURLRollTo.length = 0 →
      updateDeploymentConfigGuard r2 =
        some "updated deployment config did not include containers") := by
  refine ⟨?_, ?_, rfl, ?_⟩
  · simp [createDeploymentSubmission, createDeploymentConfig, if_pos h,
      emptyDeployment]
  · simp [createDeploymentSubmission, createDeploymentConfig, if_pos h,
      emptyDeployment]
  · intro r2 h2
    simp [updateDeploymentConfigGuard, createDeploymentConfig, if_pos h2,
      emptyDeployment]

/-- Witness for the amended C5 at the concrete empty-image runner. -/
theorem C5_amended_empty_image_witness :
    (createDeploymentSubmission runnerEmptyImage).config.containers.length = 0 ∧
    (createDeploymentSubmission runnerEmptyImage).config.warnedEmptyImage = true ∧
    (createDeploymentSubmission runnerEmptyImage).submitted = true ∧
    (∀ r2 : CheckRunnerL, r2.cfg.checkImageURLRollTo.length = 0 →
      updateDeploymentConfigGuard r2 =
        some "updated deployment config did not include containers") :=
  C5_amended_empty_image runnerEmptyImage (by decide)

/-- The two delete calls made by the cleanup coordinator, in the order
the source issues them. -/
inductive CleanupCall where
  | deleteService
  | deleteDeployment
deriving DecidableEq, Repr

/-- Result of one cleanup invocation: the delete calls issued, in
order, and the error the function returns. -/
structure CleanupRun where
  calls : List CleanupCall
  result : Option String
deriving DecidableEq, Repr

/-- Embedding of cleanup (checkConfig source, cleanup lines 478-507):
deleteServiceAndWait is invoked first, deleteDeploymentAndWait second
with no condition on the first result; failures are concatenated into
the resultErr string exactly as the Go code does, and a non-empty
resultErr is returned as the combined error.  The two delete-and-wait
outcomes are the parameters. -/
def cleanup (serviceErr deploymentErr : Option String) : CleanupRun :=
  let r0 : String := ""
  let r1 : String :=
    match serviceErr with
    | some e => r0 ++ "error cleaning up service: " ++ e
    | none => r0
  let r2 : String :=
    match deploymentErr with
    | some e =>
      let r1b := if r1.length ≠ 0 then r1 ++ " | " else r1
      r1b ++ "error cleaning up deployment: " ++ e
    | none => r1
  { calls := [CleanupCall.deleteService, CleanupCall.deleteDeployment]
    result := if r2.length ≠ 0 then some r2 else none }

/-- C8: for every invocation of cleanup, the service deletion is
attempted first and the workload deletion afterward regardless of the
service outcome; when either deletion fails the failures are aggregated
into one combined error, and when both succeed cleanup returns no
error. -/
theorem C8_cleanup_order_and_aggregation (serviceErr deploymentErr : Option String) :
    (cleanup serviceErr deploymentErr).calls =
      [CleanupCall.deleteService, CleanupCall.deleteDeployment] ∧
    ((cleanup serviceErr deploymentErr).result = none ↔
      serviceErr = none ∧ deploymentErr = none) ∧
    (∀ s d, serviceErr = some s → deploymentErr = some d →
      (cleanup serviceErr deploymentErr).result =
        some ("error cleaning up service: " ++ s ++ " | " ++
          "error cleaning up deployment: " ++ d)) := by
  have hs : "error cleaning up service: ".length = 27 := rfl
  have hd : "error cleaning up deployment: ".length = 30 := rfl
  refine ⟨rfl, ?_, ?_⟩
  · cases serviceErr <;> cases deploymentErr <;>
      simp [cleanup, String.length_append, hs, hd]
  · rintro s d rfl rfl
    simp [cleanup, String.length_append, hs, hd, String.append_assoc]

/-- Witness for C8 with both deletions failing: the combined error
carries both messages in order. -/
theorem C8_cleanup_order_and_aggregation_witness :
    (cleanup (some "svc gone wrong") (some "deploy gone wrong")).calls =
      [CleanupCall.deleteService, CleanupCall.deleteDeployment] ∧
    ((cleanup (some "svc gone wrong") (some "deploy gone wrong")).result = none ↔
      (some "svc gone wrong" : Option String) = none ∧
      (some "deploy gone wrong" : Option String) = none) ∧
    (∀ s d, (some "svc gone wrong" : Option String) = some s →
      (some "deploy gone wrong" : Option String) = some d →
      (cleanup (some "svc gone wrong") (some "deploy gone wrong")).result =
        some ("error cleaning up service: " ++ s ++ " | " ++
          "error cleaning up deployment: " ++ d)) :=
  C8_cleanup_order_and_aggregation (some "svc gone wrong") (some "deploy gone wrong")

/-- One iteration of the delete-and-wait polling loop: whether the
caller context had expired when the loop checked it, whether the List
call failed, and the resource names the List call returned. -/
structure DeleteIter where
  ctxDone : Bool
  listErr : Bool
  items : List String
deriving DecidableEq, Repr

/-- Result of a delete-and-wait run over a finite iteration trace:
outcome (none while the loop is still polling, some none for a nil
return, some (some msg) for an error return) and the number of delete
calls issued, including the unconditional initial one. -/
structure DeleteRun where
  outcome : Option (Option String)
  deleteCalls : Nat
deriving DecidableEq, Repr

/-- The polling loop of deleteDeploymentAndWait
(deploymentOperations.go lines 167-202): each iteration checks the
context, sleeps, lists deployments by name (a list error just retries),
re-issues the delete when the name is still present, and returns nil
once the name is absent. -/
def deleteDeploymentWaitLoop (name : String) : List DeleteIter → DeleteRun
  | [] => ⟨none, 0⟩
  | it :: rest =>
    if it.ctxDone then
      ⟨some (some "timed out while waiting for deployment to delete"), 0⟩
    else if it.listErr then deleteDeploymentWaitLoop name rest
    else if name ∈ it.items then
      let r := deleteDeploymentWaitLoop name rest
      ⟨r.outcome, r.deleteCalls + 1⟩
    else ⟨some none, 0⟩

/-- Embedding of deleteDeploymentAndWait (deploymentOperations.go lines
160-203): one unconditional initial delete whose error is only logged,
then the polling loop.  initialDeleteErr carries that first delete
outcome. -/
def deleteDeploymentAndWait (name : String) (initialDeleteErr : Option String)
    (iters : List DeleteIter) : DeleteRun :=
  let r := deleteDeploymentWaitLoop name iters
  ⟨r.outcome, r.deleteCalls + 1⟩

/-- The polling loop of deleteServiceAndWait (serviceOperations.go
lines 69-104), structurally identical to the deployment loop with the
service timeout message. -/
def deleteServiceWaitLoop (name : String) : List DeleteIter → DeleteRun
  | [] => ⟨none, 0⟩
  | it :: rest =>
    if it.ctxDone then
      ⟨some (some "timed out while waiting for service to delete"), 0⟩
    else if it.listErr then deleteServiceWaitLoop name rest
    else if name ∈ it.items then
      let r := deleteServiceWaitLoop name rest
      ⟨r.outcome, r.deleteCalls + 1⟩
    else ⟨some none, 0⟩

/-- Embedding of deleteServiceAndWait (serviceOperations.go lines
62-105). -/
def deleteServiceAndWait (name : String) (initialDeleteErr : Option String)
    (iters : List DeleteIter) : DeleteRun :=
  let r := deleteServiceWaitLoop name iters
  ⟨r.outcome, r.deleteCalls + 1⟩

/-- C9: delete-and-wait is idempotent for both managed resources: when
the resource is already absent (the verification List does not return
its name) and the caller context is live, both functions return success
(nil error) even if the initial delete call failed (for example with
NotFound), and issue no delete beyond the single unconditional initial
call: exactly one delete call and no retry-driven re-issue. -/
theorem C9_delete_and_wait_idempotent (dname sname : String)
    (dErr sErr : Option String) (it1 it2 : DeleteIter)
    (rest1 rest2 : List DeleteIter)
    (h1 : it1.ctxDone = false) (h2 : it1.listErr = false)
    (h3 : dname ∉ it1.items)
    (h4 : it2.ctxDone = false) (h5 : it2.listErr = false)
    (h6 : sname ∉ it2.items) :
    deleteDeploymentAndWait dname dErr (it1 :: rest1) = ⟨some none, 1⟩ ∧
    deleteServiceAndWait sname sErr (it2 :: rest2) = ⟨some none, 1⟩ := by
  constructor
  · simp [deleteDeploymentAndWait, deleteDeploymentWaitLoop, h1, h2, h3]
  · simp [deleteServiceAndWait, deleteServiceWaitLoop, h4, h5, h6]

/-- Witness for C9: both resources already deleted, initial deletes
reporting NotFound-style errors, a single verification iteration. -/
theorem C9_delete_and_wait_idempotent_witness :
    deleteDeploymentAndWait "deployment-deployment" (some "deployments not found")
        [⟨false, false, []⟩] = ⟨some none, 1⟩ ∧
    deleteServiceAndWait "deployment-svc" (some "services not found")
        [⟨false, false, []⟩] = ⟨some none, 1⟩ :=
  C9_delete_and_wait_idempotent "deployment-deployment" "deployment-svc"
    (some "deployments not found") (some "services not found")
    ⟨false, false, []⟩ ⟨false, false, []⟩ [] []
    rfl rfl (by simp) rfl rfl (by simp)

/-- Constant requestBackoffMaxRetries (probe source line 180). -/
def requestBackoffMaxRetries : Nat := 10

/-- One iteration of the probe loop: whether ctx.Done fired at the
select, whether time.Now was past the deadline, and the HTTP attempt
result (none for a transport error, some code for a status code). -/
structure ProbeIter where
  ctxDone : Bool
  pastDeadline : Bool
  httpStatus : Option Nat
deriving DecidableEq, Repr

/-- How a probe run ended.  The cleanup-error payloads on ctxExpired
and timedOut carry the cleanup result observed when those paths invoke
cleanup. -/
inductive ProbeExit where
  | blankAddress
  | ctxExpired (cleanupErr : Option String)
  | timedOut (cleanupErr : Option String)
  | maxRetries (attempts : Nat)
  | success (attempt : Nat)
  | looping
deriving DecidableEq, Repr

/-- Result of one probe run: the exit taken, whether cleanup was
invoked on that exit path, and how many HTTP requests were made. -/
structure ProbeResult where
  exit : ProbeExit
  cleanupInvoked : Bool
  httpRequests : Nat
deriving DecidableEq, Repr

/-- Address normalization of requestServiceEndpoint (probe source lines
191-193): an http:// scheme is added when absent. -/
def normalizeAddress (address : String) : String :=
  if address.startsWith "http://" then address else "http://" ++ address

/-- The retry loop of requestServiceEndpoint (probe source lines
203-268).  Each iteration: ctx.Done returns through cleanup; a passed
deadline returns through cleanup; attempt > requestBackoffMaxRetries
returns WITHOUT cleanup; otherwise one GET is made, a 200 returns
success, anything else (the 502 relabeling and DNS-suppression only
affect logging) sleeps with linear backoff and retries with
attempt + 1. -/
def requestLoop (cleanupResult : Option String) (attempt : Nat) :
    List ProbeIter → ProbeResult
  | [] => ⟨ProbeExit.looping, false, 0⟩
  | it :: rest =>
    if it.ctxDone then ⟨ProbeExit.ctxExpired cleanupResult, true, 0⟩
    else if it.pastDeadline then ⟨ProbeExit.timedOut cleanupResult, true, 0⟩
    else if requestBackoffMaxRetries < attempt then
      ⟨ProbeExit.maxRetries (attempt - 1), false, 0⟩
    else if it.httpStatus = some 200 then ⟨ProbeExit.success attempt, false, 1⟩
    else
      let r := requestLoop cleanupResult (attempt + 1) rest
      ⟨r.exit, r.cleanupInvoked, r.httpRequests + 1⟩

/-- Embedding of requestServiceEndpoint (probe source lines 184-269):
the blank-address guard returns before the loop, before any HTTP
request and without invoking cleanup; otherwise the loop starts at
attempt 1. -/
def requestServiceEndpoint (address : String) (cleanupResult : Option String)
    (iters : List ProbeIter) : ProbeResult :=
  if address.length = 0 then ⟨ProbeExit.blankAddress, false, 0⟩
  else requestLoop cleanupResult 1 iters

/-- The error message each failing probe exit returns, built exactly as
the fmt.Errorf calls in the source build them (with the normalized
address and http.StatusOK = 200 interpolated); none for a success or a
still-running trace. -/
def probeExitMessage (address : String) : ProbeExit → Option String
  | ProbeExit.blankAddress => some "given blank service address for HTTP call"
  | ProbeExit.ctxExpired none =>
    some ("context expired while waiting for 200 from " ++ address)
  | ProbeExit.ctxExpired (some e) =>
    some ("context expired while waiting for 200 from " ++ address ++
      " and cleanup failed: " ++ e)
  | ProbeExit.timedOut none =>
    some "backoff loop for a 200 response took too long and timed out"
  | ProbeExit.timedOut (some e) =>
    some ("backoff loop timed out and cleanup failed: " ++ e)
  | ProbeExit.maxRetries n =>
    some ("could not successfully make an HTTP request after " ++
      toString n ++ " attempts")
  | ProbeExit.success _ => none
  | ProbeExit.looping => none

/-- The first three characters of a string, used to separate the fixed
leading literals of the probe error messages. -/
def firstThree (s : String) : List Char := s.data.take 3

theorem firstThree_append (s t : String) (h : 3 ≤ s.data.length) :
    firstThree (s ++ t) = firstThree s := by
  unfold firstThree
  rw [String.data_append]
  exact List.take_append_of_le_length h

theorem firstThree_ctxExpired (address : String) (c : Option String) :
    ∃ m, probeExitMessage address (ProbeExit.ctxExpired c) = some m ∧
      firstThree m = ['c', 'o', 'n'] := by
  cases c with
  | none =>
    refine ⟨_, rfl, ?_⟩
    rw [firstThree_append _ _ (by decide)]
    decide
  | some e =>
    refine ⟨_, rfl, ?_⟩
    rw [String.append_assoc, String.append_assoc,
      firstThree_append _ _ (by decide)]
    decide

theorem firstThree_timedOut (address : String) (c : Option String) :
    ∃ m, probeExitMessage address (ProbeExit.timedOut c) = some m ∧
      firstThree m = ['b', 'a', 'c'] := by
  cases c with
  | none => exact ⟨_, rfl, rfl⟩
  | some e =>
    refine ⟨_, rfl, ?_⟩
    rw [firstThree_append _ _ (by decide)]
    decide

theorem firstThree_maxRetries (address : String) (n : Nat) :
    ∃ m, probeExitMessage address (ProbeExit.maxRetries n) = some m ∧
      firstThree m = ['c', 'o', 'u'] := by
  refine ⟨_, rfl, ?_⟩
  rw [String.append_assoc, firstThree_append _ _ (by decide)]
  decide

theorem requestLoop_cleanup_iff (c : Option String) (a : Nat)
    (iters : List ProbeIter) :
    (requestLoop c a iters).cleanupInvoked = true ↔
      ((∃ e, (requestLoop c a iters).exit = ProbeExit.ctxExpired e) ∨
       (∃ e, (requestLoop c a iters).exit = ProbeExit.timedOut e)) := by
  induction iters generalizing a with
  | nil => simp [requestLoop]
  | cons it rest ih =>
    simp only [requestLoop]
    split_ifs with h1 h2 h3 h4
    · simp
    · simp
    · simp
    · simp
    · simpa using ih (a + 1)

/-- C2 (amended): the three loop-ending conditions of the HTTP probe
return pairwise distinct errors; the context-cancellation and
wall-clock-window exits invoke cleanup before returning, but the
max-attempt exit returns its error WITHOUT invoking cleanup (cleanup is
invoked exactly on the first two exits). -/
theorem C2_amended_probe_exits (address : String) (cleanupResult : Option String)
    (iters : List ProbeIter) :
    ((requestServiceEndpoint address cleanupResult iters).cleanupInvoked = true ↔
      ((∃ e, (requestServiceEndpoint address cleanupResult iters).exit =
          ProbeExit.ctxExpired e) ∨
       (∃ e, (requestServiceEndpoint address cleanupResult iters).exit =
          ProbeExit.timedOut e))) ∧
    (∀ (a2 : String) (n : Nat) (c1 c2 c3 : Option String),
      probeExitMessage a2 (ProbeExit.ctxExpired c1) ≠
        probeExitMessage a2 (ProbeExit.timedOut c2) ∧
      probeExitMessage a2 (ProbeExit.ctxExpired c1) ≠
        probeExitMessage a2 (ProbeExit.maxRetries n) ∧
      probeExitMessage a2 (ProbeExit.timedOut c3) ≠
        probeExitMessage a2 (ProbeExit.maxRetries n)) := by
  constructor
  · unfold requestServiceEndpoint
    split_ifs with h
    · simp
    · exact requestLoop_cleanup_iff cleanupResult 1 iters
  · intro a2 n c1 c2 c3
    obtain ⟨m1, hm1, hf1⟩ := firstThree_ctxExpired a2 c1
    obtain ⟨m2, hm2, hf2⟩ := firstThree_timedOut a2 c2
    obtain ⟨m3, hm3, hf3⟩ := firstThree_timedOut a2 c3
    obtain ⟨m4, hm4, hf4⟩ := firstThree_maxRetries a2 n
    refine ⟨?_, ?_, ?_⟩
    · rw [hm1, hm2]
      intro h
      rw [Option.some.injEq] at h
      rw [h, hf2] at hf1
      exact absurd hf1 (by decide)
    · rw [hm1, hm4]
      intro h
      rw [Option.some.injEq] at h
      rw [h, hf4] at hf1
      exact absurd hf1 (by decide)
    · rw [hm3, hm4]
      intro h
      rw [Option.some.injEq] at h
      rw [h, hf4] at hf3
      exact absurd hf3 (by decide)

/-- Witness for the amended C2: a context-cancelled run invokes
cleanup, and two concrete failure messages differ. -/
theorem C2_amended_probe_exits_witness :
    (requestServiceEndpoint "10.9.8.7" none
        [⟨true, false, none⟩]).cleanupInvoked = true ∧
    probeExitMessage "http://10.9.8.7" (ProbeExit.ctxExpired none) ≠
      probeExitMessage "http://10.9.8.7" (ProbeExit.timedOut none) := by
  constructor
  · exact (C2_amended_probe_exits "10.9.8.7" none [⟨true, false, none⟩]).1.mpr
      (Or.inl ⟨none, rfl⟩)
  · exact ((C2_amended_probe_exits "10.9.8.7" none
      [⟨true, false, none⟩]).2 "http://10.9.8.7" 10 none none none).1

/-- C2 counterexample: a probe run that exhausts the maximum attempt
count (10 failed attempts, then the attempt counter exceeds the cap)
exits with the max-retries error yet does NOT invoke cleanup, refuting
the claim that each of the three loop-ending conditions triggers
cleanup before returning. -/
theorem C2_counterexample :
    (requestServiceEndpoint "10.9.8.7" none
        (List.replicate 11 ⟨false, false, some 500⟩)).exit =
      ProbeExit.maxRetries 10 ∧
    (requestServiceEndpoint "10.9.8.7" none
        (List.replicate 11 ⟨false, false, some 500⟩)).cleanupInvoked = false := by
  decide

/-- C10: for an empty target address, the HTTP probe returns the
blank-address error immediately: before entering the retry loop,
without performing any HTTP request (zero requests made) and without
invoking cleanup, whatever the loop environment would have produced;
the returned error is the dedicated blank-address message. -/
theorem C10_blank_address (cleanupResult : Option String)
    (iters : List ProbeIter) :
    requestServiceEndpoint "" cleanupResult iters =
      ⟨ProbeExit.blankAddress, false, 0⟩ ∧
    probeExitMessage "" ProbeExit.blankAddress =
      some "given blank service address for HTTP call" :=
  ⟨rfl, rfl⟩

/-- Witness for C10 at a concrete loop environment that would have
succeeded on the first attempt. -/
theorem C10_blank_address_witness :
    requestServiceEndpoint "" none [⟨false, false, some 200⟩] =
      ⟨ProbeExit.blankAddress, false, 0⟩ ∧
    probeExitMessage "" ProbeExit.blankAddress =
      some "given blank service address for HTTP call" :=
  C10_blank_address none [⟨false, false, some 200⟩]

/-- One iteration of the pod-error monitor loop: whether the monitor
context was cancelled at the select, the value of time.Until(deadline)
at the gate check, and the result of checkDeploymentPodEvent (none for
no problem observed, some err for a bad pod observation). -/
structure MonitorIter where
  ctxDone : Bool
  untilDeadline : Int
  podCheck : Option String
deriving DecidableEq, Repr

/-- How a monitor run ended: exited on context cancellation, sent an
error on the result channel, or still looping when the trace ended. -/
inductive MonitorOutcome where
  | exited
  | sent (e : String)
  | looping
deriving DecidableEq, Repr

/-- The evaluation gate of monitorDeploymentPodErrors
(deploymentOperations.go line 257): divisor > 0 and
time.Until(deadline) < CheckTimeLimit / divisor, where Go Duration
division truncates toward zero (Int.tdiv). -/
def monitorGate (checkTimeLimit divisor : Int) (it : MonitorIter) : Prop :=
  0 < divisor ∧ it.untilDeadline < Int.tdiv checkTimeLimit divisor

instance (checkTimeLimit divisor : Int) (it : MonitorIter) :
    Decidable (monitorGate checkTimeLimit divisor it) := by
  unfold monitorGate
  infer_instance

/-- Embedding of monitorDeploymentPodErrors (deploymentOperations.go
lines 246-269): each iteration exits on context cancellation, then,
once inside the time gate, runs the pod check and sends the first error
it observes on the result channel and returns; otherwise it sleeps 2
seconds and loops. -/
def monitorDeploymentPodErrors (checkTimeLimit divisor : Int) :
    List MonitorIter → MonitorOutcome
  | [] => MonitorOutcome.looping
  | it :: rest =>
    if it.ctxDone then MonitorOutcome.exited
    else if monitorGate checkTimeLimit divisor it then
      match it.podCheck with
      | some e => MonitorOutcome.sent e
      | none => monitorDeploymentPodErrors checkTimeLimit divisor rest
    else monitorDeploymentPodErrors checkTimeLimit divisor rest

/-- The divisor createDeploymentAndWait passes to the monitor
(deploymentOperations.go line 46). -/
def createMonitorDivisor : Int := 2

/-- The divisor updateDeploymentAndWait passes to the monitor
(deploymentOperations.go line 120). -/
def updateMonitorDivisor : Int := 3

/-- Number of bad pod observations carried by a monitor trace. -/
def monitorBadObservations (iters : List MonitorIter) : Nat :=
  iters.countP fun it => it.podCheck.isSome

/-- C1 counterexample: a create-stage monitor run (divisor 2) whose
trace holds exactly ONE bad pod observation inside the gate window
already surfaces that error on the result channel, refuting the claim
that an error is surfaced only after 2 consecutive bad observations
during create (and, a fortiori, the 3-for-update reading): the 2 and 3
are time-gate divisors, not consecutive-observation counts. -/
theorem C1_counterexample :
    monitorDeploymentPodErrors 100 createMonitorDivisor
        [⟨false, 10, some "ImagePullBackOff"⟩] =
      MonitorOutcome.sent "ImagePullBackOff" ∧
    monitorBadObservations [⟨false, 10, some "ImagePullBackOff"⟩] = 1 ∧
    ¬ 2 ≤ monitorBadObservations [⟨false, 10, some "ImagePullBackOff"⟩] := by
  decide

/-- C1 (amended): the stage parameter of the pod-error monitor is a
time-gate divisor, 2 for create and 3 for update: evaluation begins
once the remaining time drops below CheckTimeLimit / divisor.  In both
stages the monitor surfaces a pod error on the result channel at the
FIRST bad observation inside the gate: whenever a run sends e, its
trace splits into a prefix of iterations that neither cancelled the
context nor observed a bad pod inside the gate, followed by the single
surfaced observation. -/
theorem C1_amended_monitor :
    createMonitorDivisor = 2 ∧ updateMonitorDivisor = 3 ∧
    ∀ (checkTimeLimit divisor : Int) (iters : List MonitorIter) (e : String),
      monitorDeploymentPodErrors checkTimeLimit divisor iters =
        MonitorOutcome.sent e →
      ∃ pre it post, iters = pre ++ it :: post ∧
        (∀ p ∈ pre, p.ctxDone = false ∧
          (monitorGate checkTimeLimit divisor p → p.podCheck = none)) ∧
        it.ctxDone = false ∧
        monitorGate checkTimeLimit divisor it ∧
        it.podCheck = some e := by
  refine ⟨rfl, rfl, ?_⟩
  intro checkTimeLimit divisor iters e
  induction iters with
  | nil =>
    intro h
    exact absurd h (by simp [monitorDeploymentPodErrors])
  | cons it rest ih =>
    intro h
    rw [monitorDeploymentPodErrors] at h
    by_cases h1 : it.ctxDone = true
    · rw [if_pos h1] at h
      exact absurd h (by simp)
    · rw [if_neg h1] at h
      rw [Bool.not_eq_true] at h1
      by_cases h2 : monitorGate checkTimeLimit divisor it
      · rw [if_pos h2] at h
        cases hp : it.podCheck with
        | some e0 =>
          rw [hp] at h
          simp only [MonitorOutcome.sent.injEq] at h
          refine ⟨[], it, rest, by simp, by simp, h1, h2, ?_⟩
          rw [hp, h]
        | none =>
          rw [hp] at h
          obtain ⟨pre, it1, post, hsplit, hpre, ha, hb, hc⟩ := ih h
          refine ⟨it :: pre, it1, post, by rw [hsplit]; rfl, ?_, ha, hb, hc⟩
          intro p hpmem
          rcases List.mem_cons.mp hpmem with hpeq | hpin
          · subst hpeq
            exact ⟨h1, fun _ => hp⟩
          · exact hpre p hpin
      · rw [if_neg h2] at h
        obtain ⟨pre, it1, post, hsplit, hpre, ha, hb, hc⟩ := ih h
        refine ⟨it :: pre, it1, post, by rw [hsplit]; rfl, ?_, ha, hb, hc⟩
        intro p hpmem
        rcases List.mem_cons.mp hpmem with hpeq | hpin
        · subst hpeq
          exact ⟨h1, fun hg => absurd hg h2⟩
        · exact hpre p hpin

/-- Witness for the amended C1: a concrete create-stage run surfacing a
bad observation on its first in-gate iteration. -/
theorem C1_amended_monitor_witness :
    ∃ pre it post,
      ([⟨false, 10, some "CrashLoopBackOff"⟩] : List MonitorIter) =
        pre ++ it :: post ∧
      (∀ p ∈ pre, p.ctxDone = false ∧
        (monitorGate 100 createMonitorDivisor p → p.podCheck = none)) ∧
      it.ctxDone = false ∧
      monitorGate 100 createMonitorDivisor it ∧
      it.podCheck = some "CrashLoopBackOff" :=
  C1_amended_monitor.2.2 100 createMonitorDivisor
    [⟨false, 10, some "CrashLoopBackOff"⟩] "CrashLoopBackOff" (by decide)

theorem listInfix_append_left (a n h : List Char)
    (H : listInfix n h = true) : listInfix n (a ++ h) = true := by
  induction a with
  | nil => simpa using H
  | cons c cs ih =>
    rw [List.cons_append, listInfix.eq_def]
    simp [ih]

theorem containsSubstr_append_left (a n h : String)
    (H : containsSubstr n h = true) : containsSubstr n (a ++ h) = true := by
  unfold containsSubstr at H ⊢
  rw [String.data_append]
  exact listInfix_append_left a.data n.data h.data H

theorem containsSubstr_self_append (n b : String) :
    containsSubstr n (n ++ b) = true := by
  unfold containsSubstr
  rw [String.data_append, listInfix.eq_def, listStartsWith_self_append]
  simp

theorem containsSubstr_refl (n : String) : containsSubstr n n = true := by
  have h := containsSubstr_self_append n ""
  simpa using h

/-- One resolved select arm during the create wait loop of
createDeploymentAndWait: a watch event (none when the event object is
not a deployment, some status otherwise), a pod-error channel receive
(none for a nil error), or ctx.Done. -/
inductive CreateWaitEvent where
  | watchEvent (obj : Option DeploymentStatus)
  | podError (e : Option String)
  | ctxDone
deriving DecidableEq, Repr

/-- How a create wait run ended: success with the final status, a
failure return carrying whether cleanup was invoked on that path and
the error message, or still looping when the trace ended. -/
inductive CreateWaitOutcome where
  | success (st : DeploymentStatus)
  | failed (cleanupInvoked : Bool) (msg : String)
  | looping
deriving DecidableEq, Repr

/-- Embedding of decorateDeploymentError (error-decoration source lines
53-62): stage and pod-status snapshot wrapped around the error.  The
pod summary string produced by deploymentPodSummary is a parameter
because it is read from the cluster; the nil-error guard is omitted
since every caller below passes a non-nil error. -/
def decorateDeploymentError (stage errMsg podSummary : String) : String :=
  stage ++ " failed: " ++ errMsg ++ "; pod status: " ++ podSummary

/-- The ctx.Done branch of createDeploymentAndWait
(deploymentOperations.go lines 75-81): cleanup runs first; a cleanup
failure is returned as its own wrapped error, REPLACING the
deadline-exceeded cause; only a nil cleanup result returns the
decorated context-expired error. -/
def createCtxDoneMessage (cleanupResult : Option String)
    (podSummary : String) : String :=
  match cleanupResult with
  | some ce => "failed to clean up after deployment create: " ++ ce
  | none =>
    decorateDeploymentError "deployment create"
      "context expired while waiting for deployment to create" podSummary

/-- The select loop of createDeploymentAndWait (deploymentOperations.go
lines 58-82) over a trace of resolved select arms: non-deployment
watch objects and unavailable statuses are skipped, a nil pod error is
skipped, a non-nil pod error returns the decorated error without
cleanup, and ctx.Done runs cleanup and returns the ctx-done message. -/
def createDeploymentWatchLoop (replicas : Int) (cleanupResult : Option String)
    (podSummary : String) : List CreateWaitEvent → CreateWaitOutcome
  | [] => CreateWaitOutcome.looping
  | ev :: rest =>
    match ev with
    | CreateWaitEvent.watchEvent none =>
      createDeploymentWatchLoop replicas cleanupResult podSummary rest
    | CreateWaitEvent.watchEvent (some st) =>
      if deploymentAvailable st replicas then CreateWaitOutcome.success st
      else createDeploymentWatchLoop replicas cleanupResult podSummary rest
    | CreateWaitEvent.podError none =>
      createDeploymentWatchLoop replicas cleanupResult podSummary rest
    | CreateWaitEvent.podError (some e) =>
      CreateWaitOutcome.failed false
        (decorateDeploymentError "deployment create" e podSummary)
    | CreateWaitEvent.ctxDone =>
      CreateWaitOutcome.failed true (createCtxDoneMessage cleanupResult podSummary)

/-- A select arm that the create wait loop skips without returning. -/
def createWaitEventIgnored (replicas : Int) : CreateWaitEvent → Prop
  | CreateWaitEvent.watchEvent none => True
  | CreateWaitEvent.watchEvent (some st) => deploymentAvailable st replicas = false
  | CreateWaitEvent.podError e => e = none
  | CreateWaitEvent.ctxDone => False

/-- C3 counterexample: the caller context expires while waiting for
availability and cleanup then fails; the returned error wraps only the
cleanup failure and does NOT mention the deadline-exceeded cause
(context expired), refuting the claim that the error mentions both. -/
theorem C3_counterexample :
    createDeploymentWatchLoop 2 (some "failed to delete service")
        "no deployment pods found" [CreateWaitEvent.ctxDone] =
      CreateWaitOutcome.failed true
        "failed to clean up after deployment create: failed to delete service" ∧
    containsSubstr "context expired"
      "failed to clean up after deployment create: failed to delete service" =
      false := by
  decide

/-- C3 (amended): whenever the caller context expires while the create
wait loop is still watching (after any run of skipped select arms),
cleanup is invoked before returning; when cleanup succeeds, the
returned error mentions the deadline-exceeded cause; when cleanup
fails, the returned error is exactly the wrap of the cleanup failure
(so it mentions the cleanup failure but replaces the original
deadline-exceeded cause instead of mentioning both). -/
theorem C3_amended_ctx_expiry (replicas : Int) (cleanupResult : Option String)
    (podSummary : String) (pre rest : List CreateWaitEvent)
    (hpre : ∀ ev ∈ pre, createWaitEventIgnored replicas ev) :
    createDeploymentWatchLoop replicas cleanupResult podSummary
        (pre ++ CreateWaitEvent.ctxDone :: rest) =
      CreateWaitOutcome.failed true
        (createCtxDoneMessage cleanupResult podSummary) ∧
    (cleanupResult = none →
      containsSubstr "context expired while waiting for deployment to create"
        (createCtxDoneMessage cleanupResult podSummary) = true) ∧
    (∀ ce, cleanupResult = some ce →
      createCtxDoneMessage cleanupResult podSummary =
        "failed to clean up after deployment create: " ++ ce ∧
      containsSubstr ce (createCtxDoneMessage cleanupResult podSummary) = true) := by
  refine ⟨?_, ?_, ?_⟩
  · induction pre with
    | nil => rfl
    | cons ev evs ih =>
      have hev := hpre ev (List.mem_cons_self ev evs)
      have hrest : ∀ e2 ∈ evs, createWaitEventIgnored replicas e2 :=
        fun e2 he2 => hpre e2 (List.mem_cons_of_mem ev he2)
      cases ev with
      | watchEvent obj =>
        cases obj with
        | none =>
          rw [List.cons_append]
          simpa only [createDeploymentWatchLoop] using ih hrest
        | some st =>
          have hna : deploymentAvailable st replicas = false := hev
          rw [List.cons_append]
          simp only [createDeploymentWatchLoop, hna]
          simpa using ih hrest
      | podError e =>
        have hnone : e = none := hev
        subst hnone
        rw [List.cons_append]
        simpa only [createDeploymentWatchLoop] using ih hrest
      | ctxDone => exact absurd hev (by simp [createWaitEventIgnored])
  · intro hnone
    subst hnone
    unfold createCtxDoneMessage decorateDeploymentError
    rw [String.append_assoc, String.append_assoc, String.append_assoc]
    refine containsSubstr_append_left _ _ _ ?_
    refine containsSubstr_append_left _ _ _ ?_
    exact containsSubstr_self_append _ _
  · rintro ce rfl
    refine ⟨rfl, ?_⟩
    unfold createCtxDoneMessage
    exact containsSubstr_append_left _ _ _ (containsSubstr_refl ce)

/-- Witness for the amended C3: context expiry after one skipped
non-deployment watch event, with a failing cleanup. -/
theorem C3_amended_ctx_expiry_witness :
    createDeploymentWatchLoop 2 (some "service delete timed out")
        "no deployment pods found"
        ([CreateWaitEvent.watchEvent none] ++ CreateWaitEvent.ctxDone ::
          ([] : List CreateWaitEvent)) =
      CreateWaitOutcome.failed true
        (createCtxDoneMessage (some "service delete timed out")
          "no deployment pods found") ∧
    ((some "service delete timed out" : Option String) = none →
      containsSubstr "context expired while waiting for deployment to create"
        (createCtxDoneMessage (some "service delete timed out")
          "no deployment pods found") = true) ∧
    (∀ ce, (some "service delete timed out" : Option String) = some ce →
      createCtxDoneMessage (some "service delete timed out")
          "no deployment pods found" =
        "failed to clean up after deployment create: " ++ ce ∧
      containsSubstr ce
        (createCtxDoneMessage (some "service delete timed out")
          "no deployment pods found") = true) :=
  C3_amended_ctx_expiry 2 (some "service delete timed out")
    "no deployment pods found" [CreateWaitEvent.watchEvent none] []
    (by intro ev hev
        simp only [List.mem_singleton] at hev
        subst hev
        trivial)

end DeploymentCheck
